import Mathlib

/-!
Shallow embedding of the Audubon_F21 data-marshalling code:
`src/data/dataloader.py` (class `ObjectDetectionDataset` and `od_collate_fn`),
`src/optimizers/sgd.py` (`get_sgd_optim`) and `config.py` (module-level
configuration constants).

Modelling conventions: bounding-box coordinates are rationals, a per-image
CSV table is a list of rows, the filesystem is a pair of partial maps from
paths to decoded contents, and `__getitem__` returns `Except GetItemError`
so that the Python exceptions (IndexError from the path lists, I/O errors
from missing files, and the IndexError raised by the 2-d slice
`boxes[:, 3]` on the 1-d tensor obtained from an empty box list) appear as
explicit error values.
-/

/-- One row of a per-image CSV table of bounding boxes: the spatial-extent
columns `xmin`, `ymin`, `xmax`, `ymax` and the species `class_id` column. -/
structure AnnoRow where
  xmin : ℚ
  ymin : ℚ
  xmax : ℚ
  ymax : ℚ
  class_id : Int
deriving DecidableEq

/-- A decoded image file together with its colour mode. -/
structure Image where
  data : Nat
  mode : String
deriving DecidableEq

/-- Model of `PIL.Image.convert`: the pixel data is kept and the mode is set. -/
def Image.convert (im : Image) (m : String) : Image :=
  ⟨im.data, m⟩

/-- The target dictionary built by `ObjectDetectionDataset.__getitem__`:
keys `boxes`, `labels`, `image_id`, `area`, `iscrowd`. -/
structure Target where
  boxes : List (List ℚ)
  labels : List Int
  image_id : List Nat
  area : List ℚ
  iscrowd : List Int
deriving DecidableEq

/-- The fields stored by `ObjectDetectionDataset.__init__`; the constructor
stores the four arguments and performs no validation. -/
structure ObjectDetectionDataset where
  jpg_paths : List String
  csv_paths : List String
  transform : Option ((Image × Target) → (Image × Target))
  bird_only : Bool

/-- The files visible to the loader: partial maps from a path to the decoded
image (`PIL.Image.open`) and to the parsed CSV table (`csv_to_df`). -/
structure FileSystem where
  image : String → Option Image
  csv : String → Option (List AnnoRow)

/-- Model of `target_df.iloc[row_idx]`: row access by position. -/
def iloc (df : List AnnoRow) (row_idx : Nat) : AnnoRow :=
  df.getD row_idx ⟨0, 0, 0, 0, 0⟩

/-- Lines 30-33 of dataloader.py: the label vector is `[1] * num_objs` in
bird-only mode and the `class_id` column otherwise. -/
def labelsOf (bird_only : Bool) (df : List AnnoRow) : List Int :=
  if bird_only then List.replicate df.length 1
  else df.map (fun r => r.class_id)

/-- Lines 36-42 of dataloader.py: the box list built by the loop
`for row_idx in range(num_objs)`, one `[x_1, y_1, x_2, y_2]` row each. -/
def boxesOf (df : List AnnoRow) : List (List ℚ) :=
  (List.range df.length).map
    (fun row_idx =>
      [(iloc df row_idx).xmin, (iloc df row_idx).ymin,
       (iloc df row_idx).xmax, (iloc df row_idx).ymax])

/-- Line 46 of dataloader.py: `(boxes[:, 3] - boxes[:, 1]) * (boxes[:, 2] - boxes[:, 0])`
computed elementwise over the rows of the box array. -/
def areaOf (boxes : List (List ℚ)) : List ℚ :=
  boxes.map (fun b => (b.getD 3 0 - b.getD 1 0) * (b.getD 2 0 - b.getD 0 0))

/-- Lines 44-57 of dataloader.py: the target dictionary built from the table,
with the all-zero crowd-flag vector `torch.zeros((num_objs,))`. -/
def mkTarget (bird_only : Bool) (df : List AnnoRow) (idx : Nat) : Target :=
  ⟨boxesOf df, labelsOf bird_only df, [idx], areaOf (boxesOf df),
   List.replicate df.length 0⟩

/-- The ways `__getitem__` raises: IndexError from `self._jpg_paths[idx]` or
`self._csv_paths[idx]`, a propagated I/O error from `Image.open` or
`csv_to_df`, and the IndexError raised by `boxes[:, 3]` when the box list is
empty (then `torch.as_tensor([])` is 1-dimensional). -/
inductive GetItemError where
  | indexError
  | missingImage
  | missingCsv
  | emptyBoxes2dIndex
deriving DecidableEq

/-- Model of `ObjectDetectionDataset.__getitem__` (dataloader.py lines 19-63). -/
def ObjectDetectionDataset.getitem (ds : ObjectDetectionDataset)
    (fs : FileSystem) (idx : Nat) : Except GetItemError (Image × Target) :=
  match ds.jpg_paths.get? idx, ds.csv_paths.get? idx with
  | some image_path, some target_path =>
    match fs.image image_path with
    | none => .error .missingImage
    | some im =>
      let image := im.convert "RGB"
      match fs.csv target_path with
      | none => .error .missingCsv
      | some target_df =>
        if (boxesOf target_df).isEmpty then .error .emptyBoxes2dIndex
        else
          let target := mkTarget ds.bird_only target_df idx
          match ds.transform with
          | some f => .ok (f (image, target))
          | none => .ok (image, target)
  | _, _ => .error .indexError

/-- Model of `ObjectDetectionDataset.__len__` (dataloader.py lines 65-67). -/
def ObjectDetectionDataset.len (ds : ObjectDetectionDataset) : Nat :=
  ds.jpg_paths.length

/-- A model parameter, with the `requires_grad` flag consulted by the
optimizer factory. -/
structure Param where
  pid : Nat
  requires_grad : Bool
deriving DecidableEq

/-- A model, reduced to the parameter list returned by `model.parameters()`. -/
structure Model where
  parameters : List Param

/-- A constructed `torch.optim.SGD` optimizer: the parameter list it was
given and its hyperparameters. -/
structure SGD where
  params : List Param
  lr : ℚ
  momentum : ℚ
  weight_decay : ℚ
deriving DecidableEq

/-- Model of `get_sgd_optim` (sgd.py lines 17-20): filter the parameters
that require gradients and hand them to `torch.optim.SGD`. -/
def get_sgd_optim (model : Model) (lr momentum weight_decay : ℚ) : SGD :=
  ⟨model.parameters.filter (fun p => p.requires_grad), lr, momentum,
   weight_decay⟩

/-- `config.py` line 4. -/
def BIRD_ONLY : Bool := true

/-- `config.py` line 5. -/
def SUBSET : Bool := true

/-- The value type of the `CONFIG` dictionary of `config.py`. -/
structure Config where
  model : String × Nat
  data_split : ℚ × ℚ × ℚ
  batch_size : Nat
deriving DecidableEq

/-- `config.py` lines 12-16. -/
def CONFIG : Config :=
  ⟨if BIRD_ONLY then ("bird_only", 2) else ("species", 23),
   if SUBSET then (4/100, 5/1000, 5/1000) else (8/10, 1/10, 1/10),
   if SUBSET then 1 else 8⟩

/-- The value type of the `HYPERPARAMS` dictionary of `config.py`. -/
structure Hyperparams where
  num_epoch : Nat
  l_r : ℚ
deriving DecidableEq

/-- `config.py` lines 19-22. -/
def HYPERPARAMS : Hyperparams := ⟨5, 2/1000⟩

/-- `config.py` line 25. -/
def PLOTS_PATH : String := "./plots/"

/-- `config.py` line 26. -/
def DATA_PATH : String := "./database/"

/-- `config.py` line 27. -/
def IMG_PATH : String := DATA_PATH ++ "detection/raw_data/images/"

/-- `config.py` line 28. -/
def OLD_CSV_PATH : String := DATA_PATH ++ "detection/raw_data/csv_files_old/"

/-- `config.py` line 29. -/
def NEW_CSV_PATH : String := DATA_PATH ++ "detection/raw_data/csv_files_new/"

/-- `config.py` line 30. -/
def TILED_IMG_PATH : String := DATA_PATH ++ "detection/tiled_data/images/"

/-- `config.py` line 31. -/
def TILED_OLD_CSV_PATH : String :=
  DATA_PATH ++ "detection/tiled_data/csv_files_old/"

/-- `config.py` line 32. -/
def TILED_NEW_CSV_PATH : String :=
  DATA_PATH ++ "detection/tiled_data/csv_files_new/"

/-- `config.py` line 33. -/
def CROPPED_PATH : String := DATA_PATH ++ "cropped/"

/-- `config.py` line 34. -/
def DETECTOR_PATH : String := DATA_PATH ++ "models/" ++ CONFIG.model.1 ++ "/"

/-- `config.py` lines 37-55: the label-renaming table. -/
def DESC_MAPPING : List (String × String) :=
  [("Great Egret Flying", "Great Egret Adult"),
   ("Reddish Egret Flying", "Reddish Egret Adult"),
   ("White Ibis Juvenile", "White Ibis Adult"),
   ("Black Skimmer flying", "Black Skimmer Adult"),
   ("Great Blue Heron Flying", "Great Blue Heron Adult"),
   ("Laughing Gull Flying", "Laughing Gull Adult"),
   ("Brown Pelican In Flight", "Brown Pelican Adult"),
   ("Brown Pelican - Wings Spread", "Brown Pelican Adult"),
   ("Mixed Tern Flying", "Mixed Tern Adult"),
   ("Reddish Egret Chick", "Reddish Egret Adult"),
   ("Laughing Gull Juvenile", "Laughing Gull Adult"),
   ("Brown Pelican Wings Spread", "Brown Pelican Adult"),
   ("Black Crowned Night Heron Adult", "Black-Crowned Night Heron Adult"),
   ("Tri-Colored Heron Adult", "Tricolored Heron Adult"),
   ("Cattle Egret Flying", "Cattle Egret Adult"),
   ("Trash/Debris", "Debris"),
   ("Great Egret/White Morph Adult", "Great Egret or White Morph Adult")]

/-- `config.py` lines 56-64: the label-deletion list. -/
def ON_DELETE : List String :=
  ["Great Blue Heron Egg",
   "White Ibis Nest",
   "Double-Crested Cormorant Adult",
   "Great Blue Heron Nest",
   "American Avocet Adult",
   "Trash",
   "American Oystercatcher"]

/-- The whole configuration state built when `config.py` is imported. -/
structure ConfigState where
  config : Config
  hyperparams : Hyperparams
  plots_path : String
  data_path : String
  img_path : String
  old_csv_path : String
  new_csv_path : String
  tiled_img_path : String
  tiled_old_csv_path : String
  tiled_new_csv_path : String
  cropped_path : String
  detector_path : String
  desc_mapping : List (String × String)
  on_delete : List String
deriving DecidableEq

/-- The configuration as constructed once at module load. -/
def moduleLoadConfig : ConfigState :=
  ⟨CONFIG, HYPERPARAMS, PLOTS_PATH, DATA_PATH, IMG_PATH, OLD_CSV_PATH,
   NEW_CSV_PATH, TILED_IMG_PATH, TILED_OLD_CSV_PATH, TILED_NEW_CSV_PATH,
   CROPPED_PATH, DETECTOR_PATH, DESC_MAPPING, ON_DELETE⟩

/-- Model of `od_collate_fn` (dataloader.py lines 70-72): transpose a batch
of (image, target) pairs into a pair of batches. -/
def od_collate_fn {α β : Type} (batch : List (α × β)) : List α × List β :=
  (batch.map Prod.fst, batch.map Prod.snd)

/-- `ObjectDetectionDataset.__getitem__` lifted over the configuration state:
the function body never reads or writes the config module. -/
def getitemOp (cfg : ConfigState) (ds : ObjectDetectionDataset)
    (fs : FileSystem) (idx : Nat) :
    ConfigState × Except GetItemError (Image × Target) :=
  (cfg, ds.getitem fs idx)

/-- `ObjectDetectionDataset.__len__` lifted over the configuration state. -/
def lenOp (cfg : ConfigState) (ds : ObjectDetectionDataset) :
    ConfigState × Nat :=
  (cfg, ds.len)

/-- `get_sgd_optim` lifted over the configuration state. -/
def sgdOp (cfg : ConfigState) (model : Model)
    (lr momentum weight_decay : ℚ) : ConfigState × SGD :=
  (cfg, get_sgd_optim model lr momentum weight_decay)

/-- `od_collate_fn` lifted over the configuration state. -/
def collateOp {α β : Type} (cfg : ConfigState) (batch : List (α × β)) :
    ConfigState × (List α × List β) :=
  (cfg, od_collate_fn batch)

/-- Concrete table row used by the witness instances. -/
def rowA : AnnoRow := ⟨1, 2, 4, 6, 5⟩

/-- Concrete table row used by the witness instances. -/
def rowB : AnnoRow := ⟨0, 0, 2, 3, 9⟩

/-- Concrete two-row table used by the witness instances. -/
def dfDemo : List AnnoRow := [rowA, rowB]

/-- The table `dfDemo` with both class ids changed and all boxes kept. -/
def dfDemo2 : List AnnoRow := [⟨1, 2, 4, 6, 11⟩, ⟨0, 0, 2, 3, 3⟩]

/-- Concrete undecoded image used by the witness instances. -/
def imRaw : Image := ⟨7, "raw"⟩

/-- Concrete filesystem holding one image file and one two-row CSV file. -/
def fsDemo : FileSystem :=
  ⟨fun p => if p = "a.jpg" then some imRaw else none,
   fun p => if p = "a.csv" then some dfDemo else none⟩

/-- The filesystem `fsDemo` with the CSV table replaced by `dfDemo2`. -/
def fsDemo2 : FileSystem :=
  ⟨fun p => if p = "a.jpg" then some imRaw else none,
   fun p => if p = "a.csv" then some dfDemo2 else none⟩

/-- The filesystem `fsDemo` with the CSV table replaced by the empty table. -/
def fsEmptyCsv : FileSystem :=
  ⟨fun p => if p = "a.jpg" then some imRaw else none,
   fun p => if p = "a.csv" then some [] else none⟩

/-- A filesystem with no files at all. -/
def fsNone : FileSystem := ⟨fun _ => none, fun _ => none⟩

/-- Concrete dataset (one image, one CSV, no transform, bird-only mode). -/
def dsDemo : ObjectDetectionDataset := ⟨["a.jpg"], ["a.csv"], none, true⟩

/-- Concrete transform used by the witness instances: re-convert the image. -/
def trDemo : (Image × Target) → (Image × Target) :=
  fun pr => (pr.1.convert "L", pr.2)

/-- Concrete model with a frozen middle parameter, used by the witness
instances. -/
def mDemo : Model := ⟨[⟨0, true⟩, ⟨1, false⟩, ⟨2, true⟩]⟩

deriving instance DecidableEq for Except

theorem labelsOf_length (b : Bool) (df : List AnnoRow) :
    (labelsOf b df).length = df.length := by
  unfold labelsOf
  split <;> simp

theorem boxesOf_length (df : List AnnoRow) :
    (boxesOf df).length = df.length := by
  simp [boxesOf]

theorem boxesOf_isEmpty (df : List AnnoRow) :
    (boxesOf df).isEmpty = df.isEmpty := by
  cases df with
  | nil => rfl
  | cons r rs => simp [boxesOf, List.range_succ_eq_map]

theorem boxesOf_mem_length {df : List AnnoRow} {b : List ℚ}
    (hb : b ∈ boxesOf df) : b.length = 4 := by
  simp only [boxesOf, List.mem_map, List.mem_range] at hb
  obtain ⟨i, hi, hb⟩ := hb
  rw [← hb]
  rfl

theorem boxesOf_get? {df : List AnnoRow} {i : Nat} (hi : i < df.length) :
    (boxesOf df).get? i =
      some [(iloc df i).xmin, (iloc df i).ymin,
            (iloc df i).xmax, (iloc df i).ymax] := by
  have h1 : (List.range df.length)[i]? = some i := List.getElem?_range hi
  simp [boxesOf, List.get?_eq_getElem?, List.getElem?_map, h1]

theorem areaOf_get? (boxes : List (List ℚ)) (i : Nat) :
    (areaOf boxes).get? i = (boxes.get? i).map
      (fun b => (b.getD 3 0 - b.getD 1 0) * (b.getD 2 0 - b.getD 0 0)) := by
  simp [areaOf, List.get?_map]

theorem areaOf_boxesOf_get? {df : List AnnoRow} {i : Nat}
    (hi : i < df.length) :
    (areaOf (boxesOf df)).get? i =
      some (((iloc df i).ymax - (iloc df i).ymin) *
            ((iloc df i).xmax - (iloc df i).xmin)) := by
  rw [areaOf_get?, boxesOf_get? hi]
  rfl

theorem getitem_ok_inv {ds : ObjectDetectionDataset} {fs : FileSystem}
    {idx : Nat} {img : Image} {t : Target}
    (hok : ds.getitem fs idx = .ok (img, t)) :
    ∃ ip tp im df, ds.jpg_paths.get? idx = some ip ∧
      ds.csv_paths.get? idx = some tp ∧ fs.image ip = some im ∧
      fs.csv tp = some df ∧ 0 < df.length ∧
      ((∃ f, ds.transform = some f ∧
          (img, t) = f (im.convert "RGB", mkTarget ds.bird_only df idx)) ∨
        (ds.transform = none ∧ img = im.convert "RGB" ∧
          t = mkTarget ds.bird_only df idx)) := by
  unfold ObjectDetectionDataset.getitem at hok
  split at hok
  case _ image_path target_path hj hc =>
    split at hok
    case _ => exact absurd hok (by simp)
    case _ im him =>
      split at hok
      case _ => exact absurd hok (by simp)
      case _ df hdf =>
        split at hok
        case _ => exact absurd hok (by simp)
        case _ hne =>
          have hpos : 0 < df.length := by
            cases df with
            | nil => exact absurd rfl hne
            | cons r rs => exact Nat.succ_pos _
          split at hok
          case _ f hf =>
            refine ⟨image_path, target_path, im, df, hj, hc, him, hdf, hpos,
              Or.inl ⟨f, hf, ?_⟩⟩
            exact (Except.ok.inj hok).symm
          case _ hf =>
            obtain ⟨h1, h2⟩ := Prod.mk.injEq .. ▸ Except.ok.inj hok
            exact ⟨image_path, target_path, im, df, hj, hc, him, hdf, hpos,
              Or.inr ⟨hf, h1.symm, h2.symm⟩⟩
  case _ h =>
    exact absurd hok (by simp)

/-- C1: for an annotation table with N rows loaded by
`ObjectDetectionDataset.getitem` (no transform supplied), the returned
target has a label vector of length N and a box array of N rows, one
four-element box per table row. -/
theorem getitem_label_box_lengths
    (ds : ObjectDetectionDataset) (fs : FileSystem) (idx : Nat)
    (img : Image) (t : Target) (tp : String) (df : List AnnoRow)
    (htr : ds.transform = none)
    (hcp : ds.csv_paths.get? idx = some tp)
    (hdf : fs.csv tp = some df)
    (hok : ds.getitem fs idx = .ok (img, t)) :
    t.labels.length = df.length ∧ t.boxes.length = df.length ∧
      ∀ b ∈ t.boxes, b.length = 4 := by
  obtain ⟨ip, tp2, im, df2, hj, hc, him, hcsv, hpos, hres⟩ := getitem_ok_inv hok
  have heqt := hcp.symm.trans hc
  injection heqt with heqt
  subst heqt
  have heqd := hdf.symm.trans hcsv
  injection heqd with heqd
  subst heqd
  rcases hres with ⟨f, hf, _⟩ | ⟨_, _, ht⟩
  · rw [htr] at hf
    cases hf
  · subst ht
    simp only [mkTarget]
    exact ⟨labelsOf_length _ _, boxesOf_length _,
      fun b hb => boxesOf_mem_length hb⟩

/-- Witness for C1: the concrete two-row table `dfDemo`. -/
theorem getitem_label_box_lengths_witness :
    (mkTarget true dfDemo 0).labels.length = dfDemo.length ∧
      (mkTarget true dfDemo 0).boxes.length = dfDemo.length ∧
      ∀ b ∈ (mkTarget true dfDemo 0).boxes, b.length = 4 :=
  getitem_label_box_lengths dsDemo fsDemo 0 (imRaw.convert "RGB")
    (mkTarget true dfDemo 0) "a.csv" dfDemo rfl rfl rfl rfl

/-- C2: every area entry produced by `ObjectDetectionDataset.getitem`
equals (xmax − xmin) × (ymax − ymin) for the corresponding table row. -/
theorem getitem_area_eq
    (ds : ObjectDetectionDataset) (fs : FileSystem) (idx : Nat)
    (img : Image) (t : Target) (tp : String) (df : List AnnoRow)
    (htr : ds.transform = none)
    (hcp : ds.csv_paths.get? idx = some tp)
    (hdf : fs.csv tp = some df)
    (hok : ds.getitem fs idx = .ok (img, t))
    (i : Nat) (hi : i < df.length) :
    t.area.get? i =
      some (((iloc df i).xmax - (iloc df i).xmin) *
            ((iloc df i).ymax - (iloc df i).ymin)) := by
  obtain ⟨ip, tp2, im, df2, hj, hc, him, hcsv, hpos, hres⟩ := getitem_ok_inv hok
  have heqt := hcp.symm.trans hc
  injection heqt with heqt
  subst heqt
  have heqd := hdf.symm.trans hcsv
  injection heqd with heqd
  subst heqd
  rcases hres with ⟨f, hf, _⟩ | ⟨_, _, ht⟩
  · rw [htr] at hf
    cases hf
  · subst ht
    simp only [mkTarget]
    rw [areaOf_boxesOf_get? hi]
    exact congrArg some (mul_comm _ _)

/-- Witness for C2: row 0 of the concrete table `dfDemo`. -/
theorem getitem_area_eq_witness :
    (mkTarget true dfDemo 0).area.get? 0 =
      some (((iloc dfDemo 0).xmax - (iloc dfDemo 0).xmin) *
            ((iloc dfDemo 0).ymax - (iloc dfDemo 0).ymin)) :=
  getitem_area_eq dsDemo fsDemo 0 (imRaw.convert "RGB")
    (mkTarget true dfDemo 0) "a.csv" dfDemo rfl rfl rfl rfl
    0 (by decide)

/-- C3: in bird-only mode every label returned by
`ObjectDetectionDataset.getitem` equals the bird class id 1, and two runs
over tables of the same row count that differ only in the class-id column
(equal `boxesOf` projections) return identical label vectors. -/
theorem getitem_bird_only_labels
    (ds : ObjectDetectionDataset) (fs1 fs2 : FileSystem) (idx : Nat)
    (i1 i2 : Image) (t1 t2 : Target) (tp : String) (df1 df2 : List AnnoRow)
    (hb : ds.bird_only = true) (htr : ds.transform = none)
    (hcp : ds.csv_paths.get? idx = some tp)
    (h1 : fs1.csv tp = some df1) (h2 : fs2.csv tp = some df2)
    (hlen : df1.length = df2.length)
    (hbox : boxesOf df1 = boxesOf df2)
    (hok1 : ds.getitem fs1 idx = .ok (i1, t1))
    (hok2 : ds.getitem fs2 idx = .ok (i2, t2)) :
    (∀ l ∈ t1.labels, l = 1) ∧ t1.labels = t2.labels := by
  obtain ⟨ip, tpa, im, dfa, hj, hc, him, hcsv, hpos, hres⟩ := getitem_ok_inv hok1
  have heqt := hcp.symm.trans hc
  injection heqt with heqt
  subst heqt
  have heqd := h1.symm.trans hcsv
  injection heqd with heqd
  subst heqd
  obtain ⟨ip2, tpb, im2, dfb, hj2, hc2, him2, hcsv2, hpos2, hres2⟩ :=
    getitem_ok_inv hok2
  have heqt2 := hcp.symm.trans hc2
  injection heqt2 with heqt2
  subst heqt2
  have heqd2 := h2.symm.trans hcsv2
  injection heqd2 with heqd2
  subst heqd2
  rcases hres with ⟨f, hf, _⟩ | ⟨_, _, ht⟩
  · rw [htr] at hf
    cases hf
  rcases hres2 with ⟨f, hf, _⟩ | ⟨_, _, ht2⟩
  · rw [htr] at hf
    cases hf
  subst ht
  subst ht2
  constructor
  · intro l hl
    simp only [mkTarget, labelsOf, hb, if_pos] at hl
    exact List.eq_of_mem_replicate hl
  · simp [mkTarget, labelsOf, hb, hlen]

/-- Witness for C3: `dfDemo` and `dfDemo2` share boxes and differ in every
class id. -/
theorem getitem_bird_only_labels_witness :
    (∀ l ∈ (mkTarget true dfDemo 0).labels, l = 1) ∧
      (mkTarget true dfDemo 0).labels = (mkTarget true dfDemo2 0).labels :=
  getitem_bird_only_labels dsDemo fsDemo fsDemo2 0 (imRaw.convert "RGB")
    (imRaw.convert "RGB") (mkTarget true dfDemo 0) (mkTarget true dfDemo2 0)
    "a.csv" dfDemo dfDemo2 rfl rfl rfl rfl rfl rfl rfl rfl rfl

/-- C4: the crowd-flag vector returned by `ObjectDetectionDataset.getitem`
has one entry per table row and every entry is zero. -/
theorem getitem_iscrowd_zero
    (ds : ObjectDetectionDataset) (fs : FileSystem) (idx : Nat)
    (img : Image) (t : Target) (tp : String) (df : List AnnoRow)
    (htr : ds.transform = none)
    (hcp : ds.csv_paths.get? idx = some tp)
    (hdf : fs.csv tp = some df)
    (hok : ds.getitem fs idx = .ok (img, t)) :
    t.iscrowd.length = df.length ∧ ∀ z ∈ t.iscrowd, z = 0 := by
  obtain ⟨ip, tp2, im, df2, hj, hc, him, hcsv, hpos, hres⟩ := getitem_ok_inv hok
  have heqt := hcp.symm.trans hc
  injection heqt with heqt
  subst heqt
  have heqd := hdf.symm.trans hcsv
  injection heqd with heqd
  subst heqd
  rcases hres with ⟨f, hf, _⟩ | ⟨_, _, ht⟩
  · rw [htr] at hf
    cases hf
  · subst ht
    simp only [mkTarget]
    exact ⟨by simp, fun z hz => List.eq_of_mem_replicate hz⟩

/-- Witness for C4: the concrete two-row table `dfDemo`. -/
theorem getitem_iscrowd_zero_witness :
    (mkTarget true dfDemo 0).iscrowd.length = dfDemo.length ∧
      ∀ z ∈ (mkTarget true dfDemo 0).iscrowd, z = 0 :=
  getitem_iscrowd_zero dsDemo fsDemo 0 (imRaw.convert "RGB")
    (mkTarget true dfDemo 0) "a.csv" dfDemo rfl rfl rfl rfl

/-- C5: `ObjectDetectionDataset.getitem` fails with an IndexError whenever
the index is out of range of either stored path list, and propagates the
underlying I/O failure whenever the referenced image file or annotation
CSV file is missing; no failure is caught. -/
theorem getitem_failure_propagation :
    (∀ (ds : ObjectDetectionDataset) (fs : FileSystem) (idx : Nat),
        ds.jpg_paths.get? idx = none ∨ ds.csv_paths.get? idx = none →
        ds.getitem fs idx = .error .indexError) ∧
    (∀ (ds : ObjectDetectionDataset) (fs : FileSystem) (idx : Nat)
        (ip tp : String),
        ds.jpg_paths.get? idx = some ip → ds.csv_paths.get? idx = some tp →
        fs.image ip = none → ds.getitem fs idx = .error .missingImage) ∧
    (∀ (ds : ObjectDetectionDataset) (fs : FileSystem) (idx : Nat)
        (ip tp : String) (im : Image),
        ds.jpg_paths.get? idx = some ip → ds.csv_paths.get? idx = some tp →
        fs.image ip = some im → fs.csv tp = none →
        ds.getitem fs idx = .error .missingCsv) := by
  refine ⟨?_, ?_, ?_⟩
  · intro ds fs idx h
    unfold ObjectDetectionDataset.getitem
    cases hj : ds.jpg_paths.get? idx with
    | none => cases hc : ds.csv_paths.get? idx <;> rfl
    | some ip =>
      cases hc : ds.csv_paths.get? idx with
      | none => rfl
      | some tp =>
        rcases h with h | h
        · rw [hj] at h
          cases h
        · rw [hc] at h
          cases h
  · intro ds fs idx ip tp h1 h2 him
    simp only [ObjectDetectionDataset.getitem, h1, h2, him]
  · intro ds fs idx ip tp im h1 h2 him hcs
    simp only [ObjectDetectionDataset.getitem, h1, h2, him, hcs]

/-- Witness for C5: an out-of-range index, a missing image file, and a
missing CSV file. -/
theorem getitem_failure_propagation_witness :
    ObjectDetectionDataset.getitem ⟨["a.jpg"], [], none, true⟩ fsDemo 0 =
        .error .indexError ∧
      dsDemo.getitem fsNone 0 = .error .missingImage ∧
      ObjectDetectionDataset.getitem ⟨["a.jpg"], ["b.csv"], none, true⟩
          fsDemo 0 = .error .missingCsv :=
  ⟨getitem_failure_propagation.1 ⟨["a.jpg"], [], none, true⟩ fsDemo 0
      (Or.inr rfl),
   getitem_failure_propagation.2.1 dsDemo fsNone 0 "a.jpg" "a.csv" rfl rfl
      rfl,
   getitem_failure_propagation.2.2 ⟨["a.jpg"], ["b.csv"], none, true⟩
      fsDemo 0 "a.jpg" "b.csv" imRaw rfl rfl rfl rfl⟩

/-- C6: `ObjectDetectionDataset.getitem` applies the transform to the
(image, target) pair exactly when one was supplied; with no transform the
loaded image (converted to RGB) and the constructed target are returned
unmodified. -/
theorem getitem_transform_application :
    (∀ (jp cp : List String) (b : Bool)
        (f : (Image × Target) → (Image × Target)) (fs : FileSystem)
        (idx : Nat),
        ObjectDetectionDataset.getitem ⟨jp, cp, some f, b⟩ fs idx =
          Except.map f
            (ObjectDetectionDataset.getitem ⟨jp, cp, none, b⟩ fs idx)) ∧
    (∀ (ds : ObjectDetectionDataset) (fs : FileSystem) (idx : Nat)
        (img : Image) (t : Target), ds.transform = none →
        ds.getitem fs idx = .ok (img, t) →
        ∃ ip im tp df, ds.jpg_paths.get? idx = some ip ∧
          fs.image ip = some im ∧ img = im.convert "RGB" ∧
          ds.csv_paths.get? idx = some tp ∧ fs.csv tp = some df ∧
          t = mkTarget ds.bird_only df idx) := by
  constructor
  · intro jp cp b f fs idx
    cases hj : jp.get? idx with
    | none =>
      cases hc : cp.get? idx <;>
        simp only [ObjectDetectionDataset.getitem, hj, Except.map]
    | some ip =>
      cases hc : cp.get? idx with
      | none => simp only [ObjectDetectionDataset.getitem, hj, hc, Except.map]
      | some tp =>
        cases him : fs.image ip with
        | none =>
          simp only [ObjectDetectionDataset.getitem, hj, hc, him, Except.map]
        | some im =>
          cases hcs : fs.csv tp with
          | none =>
            simp only [ObjectDetectionDataset.getitem, hj, hc, him, hcs,
              Except.map]
          | some df =>
            cases hdf : df with
            | nil =>
              subst hdf
              simp only [ObjectDetectionDataset.getitem, hj, hc, him, hcs,
                boxesOf_isEmpty, List.isEmpty_nil, if_true, Except.map]
            | cons r rs =>
              subst hdf
              simp only [ObjectDetectionDataset.getitem, hj, hc, him, hcs,
                boxesOf_isEmpty, List.isEmpty_cons, Bool.false_eq_true,
                if_false, Except.map]
  · intro ds fs idx img t htr hok
    obtain ⟨ip, tp, im, df, hj, hc, him, hcsv, hpos, hres⟩ :=
      getitem_ok_inv hok
    rcases hres with ⟨f, hf, _⟩ | ⟨_, h1, h2⟩
    · rw [htr] at hf
      cases hf
    · exact ⟨ip, im, tp, df, hj, him, h1, hc, hcsv, h2⟩

/-- Witness for C6: the transform `trDemo` on the concrete dataset, and the
no-transform run on the same data. -/
theorem getitem_transform_application_witness :
    ObjectDetectionDataset.getitem ⟨["a.jpg"], ["a.csv"], some trDemo, true⟩
        fsDemo 0 =
      Except.map trDemo
        (ObjectDetectionDataset.getitem ⟨["a.jpg"], ["a.csv"], none, true⟩
          fsDemo 0) ∧
    ∃ ip im tp df, dsDemo.jpg_paths.get? 0 = some ip ∧
      fsDemo.image ip = some im ∧ imRaw.convert "RGB" = im.convert "RGB" ∧
      dsDemo.csv_paths.get? 0 = some tp ∧ fsDemo.csv tp = some df ∧
      mkTarget true dfDemo 0 = mkTarget dsDemo.bird_only df 0 :=
  ⟨getitem_transform_application.1 ["a.jpg"] ["a.csv"] true trDemo fsDemo 0,
   getitem_transform_application.2 dsDemo fsDemo 0 (imRaw.convert "RGB")
     (mkTarget true dfDemo 0) rfl rfl⟩

/-- C7: `get_sgd_optim` hands the optimizer exactly the model parameters
whose `requires_grad` flag is true, in their original order, configured
with the given learning rate, momentum and weight decay. -/
theorem get_sgd_optim_spec (model : Model) (lr momentum weight_decay : ℚ) :
    List.Sublist (get_sgd_optim model lr momentum weight_decay).params
        model.parameters ∧
    (∀ p ∈ (get_sgd_optim model lr momentum weight_decay).params,
        p.requires_grad = true) ∧
    (∀ p ∈ model.parameters, p.requires_grad = true →
        p ∈ (get_sgd_optim model lr momentum weight_decay).params) ∧
    (get_sgd_optim model lr momentum weight_decay).lr = lr ∧
    (get_sgd_optim model lr momentum weight_decay).momentum = momentum ∧
    (get_sgd_optim model lr momentum weight_decay).weight_decay =
      weight_decay := by
  refine ⟨List.filter_sublist _, ?_, ?_, rfl, rfl, rfl⟩
  · intro p hp
    exact (List.mem_filter.mp hp).2
  · intro p hp hg
    exact List.mem_filter.mpr ⟨hp, hg⟩

/-- Witness for C7: a three-parameter model whose middle parameter is
frozen. -/
theorem get_sgd_optim_spec_witness :
    List.Sublist (get_sgd_optim mDemo 1 2 3).params mDemo.parameters ∧
    (∀ p ∈ (get_sgd_optim mDemo 1 2 3).params, p.requires_grad = true) ∧
    (∀ p ∈ mDemo.parameters, p.requires_grad = true →
        p ∈ (get_sgd_optim mDemo 1 2 3).params) ∧
    (get_sgd_optim mDemo 1 2 3).lr = 1 ∧
    (get_sgd_optim mDemo 1 2 3).momentum = 2 ∧
    (get_sgd_optim mDemo 1 2 3).weight_decay = 3 :=
  get_sgd_optim_spec mDemo 1 2 3

/-- C8: the configuration constructed at module load is read-only: every
operation in the repository, lifted over the configuration state, returns
its configuration component unchanged. -/
theorem config_read_only :
    (∀ (cfg : ConfigState) (ds : ObjectDetectionDataset) (fs : FileSystem)
        (idx : Nat), (getitemOp cfg ds fs idx).1 = cfg) ∧
    (∀ (cfg : ConfigState) (ds : ObjectDetectionDataset),
        (lenOp cfg ds).1 = cfg) ∧
    (∀ (cfg : ConfigState) (model : Model) (lr momentum weight_decay : ℚ),
        (sgdOp cfg model lr momentum weight_decay).1 = cfg) ∧
    (∀ (cfg : ConfigState) (batch : List (Image × Target)),
        (collateOp cfg batch).1 = cfg) ∧
    moduleLoadConfig.config = CONFIG ∧
    moduleLoadConfig.hyperparams = HYPERPARAMS :=
  ⟨fun _ _ _ _ => rfl, fun _ _ => rfl, fun _ _ _ _ _ => rfl,
   fun _ _ => rfl, rfl, rfl⟩

/-- C9: an annotation CSV with zero rows makes `getitem` fail in the area
computation (2-d slice of the 1-d tensor built from the empty box list);
`getitem` returns a pair only when the table has at least one row. -/
theorem getitem_empty_table_fails :
    (∀ (ds : ObjectDetectionDataset) (fs : FileSystem) (idx : Nat)
        (ip tp : String) (im : Image),
        ds.jpg_paths.get? idx = some ip → ds.csv_paths.get? idx = some tp →
        fs.image ip = some im → fs.csv tp = some [] →
        ds.getitem fs idx = .error .emptyBoxes2dIndex) ∧
    (∀ (ds : ObjectDetectionDataset) (fs : FileSystem) (idx : Nat)
        (img : Image) (t : Target),
        ds.getitem fs idx = .ok (img, t) →
        ∃ tp df, ds.csv_paths.get? idx = some tp ∧ fs.csv tp = some df ∧
          0 < df.length) := by
  constructor
  · intro ds fs idx ip tp im h1 h2 him hcs
    simp only [ObjectDetectionDataset.getitem, h1, h2, him, hcs,
      boxesOf_isEmpty, List.isEmpty_nil, if_true]
  · intro ds fs idx img t hok
    obtain ⟨ip, tp, im, df, hj, hc, him, hcsv, hpos, _⟩ := getitem_ok_inv hok
    exact ⟨tp, df, hc, hcsv, hpos⟩

/-- Witness for C9: the empty CSV table fails, the two-row table returns. -/
theorem getitem_empty_table_fails_witness :
    dsDemo.getitem fsEmptyCsv 0 = .error .emptyBoxes2dIndex ∧
      ∃ tp df, dsDemo.csv_paths.get? 0 = some tp ∧ fsDemo.csv tp = some df ∧
        0 < df.length :=
  ⟨getitem_empty_table_fails.1 dsDemo fsEmptyCsv 0 "a.jpg" "a.csv" imRaw
      rfl rfl rfl rfl,
   getitem_empty_table_fails.2 dsDemo fsDemo 0 (imRaw.convert "RGB")
      (mkTarget true dfDemo 0) rfl⟩

/-- C10: `len` returns the length of the image-path list only and is
independent of the csv-path list; the constructor accepts mismatched
lists, so a dataset can report a length whose indices have no annotation
path, and lookup there fails. -/
theorem len_ignores_csv_paths :
    (∀ (jp cp : List String)
        (tr : Option ((Image × Target) → (Image × Target))) (b : Bool),
        (ObjectDetectionDataset.mk jp cp tr b).len = jp.length) ∧
    (∀ (jp cp cp2 : List String)
        (tr tr2 : Option ((Image × Target) → (Image × Target)))
        (b b2 : Bool),
        (ObjectDetectionDataset.mk jp cp tr b).len =
          (ObjectDetectionDataset.mk jp cp2 tr2 b2).len) ∧
    ((ObjectDetectionDataset.mk ["a.jpg"] [] none true).len = 1 ∧
      (ObjectDetectionDataset.mk ["a.jpg"] [] none true).csv_paths.length =
        0 ∧
      ObjectDetectionDataset.getitem ⟨["a.jpg"], [], none, true⟩ fsDemo 0 =
        .error .indexError) :=
  ⟨fun _ _ _ _ => rfl, fun _ _ _ _ _ _ _ => rfl, rfl, rfl, rfl⟩
